import Mathlib

/-!
Verification of the user-board simulation pipeline
(`userboard_pipeline.py`) against its natural-language specification.

The Python program is shallowly embedded: pure string manipulation is
translated directly; the external completion service (the LLM call), the
per-round `random.shuffle`, and the external JSON parser are modelled as
explicit function parameters (oracles), since the specification treats
them as external collaborators.  Fallible calls are modelled with
`Except`: `Except.error` stands for a raised Python exception.
-/

namespace UserBoard

/-- Role-tagged message of the global conversation history
(`HumanMessage` / `AIMessage` in the source). -/
inductive Msg where
  | human (content : String)
  | ai (content : String)
deriving DecidableEq, Repr

/-- Content of a message. -/
def Msg.content : Msg → String
  | .human c => c
  | .ai c => c

/-- Whether a message is a facilitator (human) turn. -/
def Msg.isHumanMsg : Msg → Bool
  | .human _ => true
  | .ai _ => false

/-- Whether a message is a persona (assistant) turn. -/
def Msg.isAiMsg : Msg → Bool
  | .human _ => false
  | .ai _ => true

/-- `FeatureProposal` dataclass: integer sequence number plus free-text
description. -/
structure FeatureProposal where
  id : Int
  description : String
deriving DecidableEq, Repr

/-- `Persona` dataclass. -/
structure Persona where
  name : String
  background : String
  quote : String
  sentiment : String
  pain_points : List String
  inspired_by_cluster_id : Option String := none
deriving DecidableEq, Repr

/-- The numbered feature list embedded in the round-1 facilitator message:
`"\n".join(f"{i+1}. {f.description}" for i, f in enumerate(features))`. -/
def featureListMd (features : List FeatureProposal) : String :=
  String.intercalate ("\n")
    (features.enum.map (fun ia => toString (ia.1 + 1) ++ (". ") ++ ia.2.description))

/-- The round-1 facilitator message (presents all feature proposals and
asks for excitement/concerns). -/
def introMsg (features : List FeatureProposal) : String :=
  ("Welcome, everyone. We have **") ++ toString features.length ++
    ("** candidate features:\n") ++ featureListMd features ++
    ("\n\n👉 In a SHORT paragraph: what excites or worries you most?")

/-- The round-2 facilitator message (risk or success metric per feature). -/
def riskMsg : String :=
  "Thanks! Now dig deeper: for EACH feature name either one concrete risk or one success metric. Any initial thoughts on potential impacts?"

/-- The facilitator message of the `else` branch of the round dispatch
(pick one feature to prioritise and state one trade-off). -/
def prioritiseMsg : String :=
  "Time to prioritise. Pick ONE feature Spotify should ship next quarter & why . Mention one trade-off you\x27d accept."

/-- Facilitator message construction (lines 649-658 of the source):
`if r == 1: ... elif r == 2: ... else: ...`.  Note that the `else`
branch is taken for every `r ≥ 3`, whatever the configured round count. -/
def facInput (features : List FeatureProposal) (r : Nat) : String :=
  if r = 1 then introMsg features
  else if r = 2 then riskMsg
  else prioritiseMsg

/-- Transcript header preceding a facilitator message:
`f"\n### 🎤 Facilitator – Round {r}"`. -/
def facHeader (r : Nat) : String :=
  ("\n### 🎤 Facilitator – Round ") ++ toString r

/-- Transcript header preceding a persona reply: `f"\n#### 👤 {p.name}"`. -/
def personaHeader (name : String) : String :=
  ("\n#### 👤 ") ++ name

/-- Placeholder reply substituted when a persona turn raises
(line 678 of the source). -/
def errPlaceholder : String :=
  "(Persona encountered an error and could not generate response)"

/-- Whitespace characters stripped by Python `str.strip()` (ASCII
range; the embedding models ASCII text). -/
def isPyWhitespace (c : Char) : Bool :=
  c == ' ' || c == '\t' || c == '\n' || c == '\r' || c == '\x0b' || c == '\x0c'

/-- Python `str.strip()`: drop leading and trailing whitespace. -/
def pyStrip (s : String) : String :=
  ⟨((s.data.dropWhile isPyWhitespace).reverse.dropWhile isPyWhitespace).reverse⟩

/-- Python `str.lower()` (ASCII model via `Char.toLower`). -/
def pyLower (s : String) : String :=
  ⟨s.data.map Char.toLower⟩

/-- Whether the first character list starts the second one. -/
def leadsList : List Char → List Char → Bool
  | [], _ => true
  | _ :: _, [] => false
  | a :: as, b :: bs => a == b && leadsList as bs

/-- Whether the first character list occurs contiguously inside the
second one (Python `in` on strings). -/
def occursIn (needle : List Char) : List Char → Bool
  | [] => needle.isEmpty
  | b :: bs => leadsList needle (b :: bs) || occursIn needle bs

/-- Case-insensitive substring test `needle.lower() in haystack.lower()`
(Python `str.lower` modelled by `Char.toLower`, which agrees on ASCII). -/
def containsCI (haystack needle : String) : Bool :=
  occursIn (pyLower needle).data (pyLower haystack).data

/-- Increment a vote counter at one key (`priority_votes[d] += 1` on a
`defaultdict(int)`). -/
def bumpVote (votes : String → Nat) (d : String) : String → Nat :=
  fun k => if k = d then votes k + 1 else votes k

/-- The per-reply tally loop of the final round (lines 687-691):
scan `features` in order; on the first feature whose description occurs
case-insensitively in the reply, increment that description and `break`. -/
def tallyReply (features : List FeatureProposal) (reply : String)
    (votes : String → Nat) : String → Nat :=
  match features with
  | [] => votes
  | f :: rest =>
    if containsCI reply f.description then bumpVote votes f.description
    else tallyReply rest reply votes

/-- Last `n` elements of a list (the `k = 5` window of
`ConversationBufferWindowMemory`: only the most recent 5 interaction
pairs are supplied back to the model). -/
def lastN (n : Nat) (l : List α) : List α :=
  l.drop (l.length - n)

/-- Pointwise update of a string-keyed store (Python dict assignment). -/
def updFn (f : String → α) (k : String) (v : α) : String → α :=
  fun q => if q = k then v else f q

/-- The persona whose profile the chain registered under `p.name` carries.
`chains[p.name] = chain` is executed for each `p in personas` in order, so
a later persona with the same name overwrites an earlier one: the dict
holds the chain of the last persona with that name. -/
def chainFor (personas : List Persona) (p : Persona) : Persona :=
  ((personas.filter (fun q => q.name == p.name)).getLast?).getD p

/-- The completion oracle used for a persona turn: given the profile of
the chain owner, the visible memory window (input/output pairs) and the
new input, produce the raw reply or fail (a raised exception). -/
def TurnOracle : Type :=
  Persona → List (String × String) → String → Except String String

/-- The per-round shuffle (`random.shuffle` on a copy of the persona
list), modelled as a function of the round index. -/
def Shuffle : Type :=
  Nat → List Persona → List Persona

/-- Mutable state of `simulate_board`: the Markdown transcript lines, the
global ordered history, the vote tally, and the per-name private
conversation memories (input/output pairs, oldest first). -/
structure SimState where
  transcript : List String
  history : List Msg
  votes : String → Nat
  mems : String → List (String × String)

/-- Initial simulation state. -/
def initState : SimState :=
  { transcript := [], history := [], votes := fun _ => 0, mems := fun _ => [] }

/-- One persona turn (lines 667-691): run the chain of `p.name` on the
facilitator input using that name's private memory window; on failure
substitute the placeholder; append the reply to transcript and history;
when `tally` is set (final round) run the vote scan on the reply.  On
success the chain saves the (input, raw output) pair into its memory; on
failure the memory is unchanged. -/
def personaTurn (oracle : TurnOracle) (personas : List Persona)
    (features : List FeatureProposal) (tally : Bool) (facIn : String)
    (st : SimState) (p : Persona) : SimState :=
  let owner := chainFor personas p
  let mem := st.mems p.name
  match oracle owner (lastN 5 mem) facIn with
  | .ok raw =>
    let reply := pyStrip raw
    { transcript := st.transcript ++ [personaHeader p.name, reply]
      history := st.history ++ [Msg.ai reply]
      votes := if tally then tallyReply features reply st.votes else st.votes
      mems := updFn st.mems p.name (mem ++ [(facIn, raw)]) }
  | .error _ =>
    let reply := errPlaceholder
    { transcript := st.transcript ++ [personaHeader p.name, reply]
      history := st.history ++ [Msg.ai reply]
      votes := if tally then tallyReply features reply st.votes else st.votes
      mems := st.mems }

/-- One discussion round (lines 646-691): build the facilitator message
from the round index, append it to transcript and history, shuffle the
persona order, then run one turn per persona; votes are tallied only when
`r == rounds`. -/
def runRound (oracle : TurnOracle) (shuffle : Shuffle)
    (personas : List Persona) (features : List FeatureProposal)
    (rounds : Nat) (st : SimState) (r : Nat) : SimState :=
  let facIn := facInput features r
  let st1 : SimState :=
    { st with transcript := st.transcript ++ [facHeader r, facIn]
              history := st.history ++ [Msg.human facIn] }
  (shuffle r personas).foldl
    (personaTurn oracle personas features (r == rounds) facIn) st1

/-- The full simulation loop `for r in range(1, rounds + 1)` starting
from the empty state. -/
def simulateFull (oracle : TurnOracle) (shuffle : Shuffle)
    (personas : List Persona) (features : List FeatureProposal)
    (rounds : Nat) : SimState :=
  (List.range' 1 rounds).foldl
    (runRound oracle shuffle personas features rounds) initState

/-- `simulate_board` (lines 572-698): short-circuit on missing personas
or features, otherwise run the rounds and return the joined transcript
and the global history.  The vote tally is a local variable and is not
part of the returned value. -/
def simulate_board (oracle : TurnOracle) (shuffle : Shuffle)
    (personas : List Persona) (features : List FeatureProposal)
    (rounds : Nat) : String × List Msg :=
  if personas.isEmpty || features.isEmpty then ("", [])
  else
    let fin := simulateFull oracle shuffle personas features rounds
    (String.intercalate ("\n") fin.transcript, fin.history)

/-- A string is one of the run's facilitator messages (rounds are
`1..rounds`). -/
def IsFacMsg (features : List FeatureProposal) (rounds : Nat) (s : String) : Prop :=
  ∃ r, 1 ≤ r ∧ r ≤ rounds ∧ s = facInput features r

/-- A reply text is attributed to speaker `n` in the transcript: the
transcript contains the header of `n` immediately followed by the
(stripped) text — i.e. it was emitted during a turn of the persona named
`n`. -/
def AttributedTo (n : String) (o : String) (transcript : List String) : Prop :=
  ∃ k, transcript[k]? = some (personaHeader n) ∧
    transcript[k + 1]? = some (pyStrip o)

/-- Memory privacy invariant: every pair stored in the memory registered
under name `n` consists of a facilitator message and a reply that the
transcript attributes to `n` itself. -/
def MemInv (features : List FeatureProposal) (rounds : Nat) (st : SimState) : Prop :=
  ∀ n pr, pr ∈ st.mems n →
    IsFacMsg features rounds pr.1 ∧ AttributedTo n pr.2 st.transcript

/-- Modelled from the spec's words, for the frame claim about the vote
tally: simulation state without any vote tally ("what the state would be
if no tally were computed"). -/
structure SimStateNT where
  transcript : List String
  history : List Msg
  mems : String → List (String × String)

/-- Modelled from the spec's words: one persona turn with the tally step
removed; otherwise identical to `personaTurn`. -/
def personaTurnNT (oracle : TurnOracle) (personas : List Persona)
    (facIn : String) (st : SimStateNT) (p : Persona) : SimStateNT :=
  let owner := chainFor personas p
  let mem := st.mems p.name
  match oracle owner (lastN 5 mem) facIn with
  | .ok raw =>
    let reply := pyStrip raw
    { transcript := st.transcript ++ [personaHeader p.name, reply]
      history := st.history ++ [Msg.ai reply]
      mems := updFn st.mems p.name (mem ++ [(facIn, raw)]) }
  | .error _ =>
    let reply := errPlaceholder
    { transcript := st.transcript ++ [personaHeader p.name, reply]
      history := st.history ++ [Msg.ai reply]
      mems := st.mems }

/-- Modelled from the spec's words: one round with the tally removed. -/
def runRoundNT (oracle : TurnOracle) (shuffle : Shuffle)
    (personas : List Persona) (features : List FeatureProposal)
    (st : SimStateNT) (r : Nat) : SimStateNT :=
  let facIn := facInput features r
  let st1 : SimStateNT :=
    { st with transcript := st.transcript ++ [facHeader r, facIn]
              history := st.history ++ [Msg.human facIn] }
  (shuffle r personas).foldl (personaTurnNT oracle personas facIn) st1

/-- Modelled from the spec's words: the whole simulation without votes. -/
def simulateFullNT (oracle : TurnOracle) (shuffle : Shuffle)
    (personas : List Persona) (features : List FeatureProposal)
    (rounds : Nat) : SimStateNT :=
  (List.range' 1 rounds).foldl
    (runRoundNT oracle shuffle personas features)
    { transcript := [], history := [], mems := fun _ => [] }

/-- Modelled from the spec's words: `simulate_board` as it would be if no
vote tally were computed at all. -/
def simulate_board_noTally (oracle : TurnOracle) (shuffle : Shuffle)
    (personas : List Persona) (features : List FeatureProposal)
    (rounds : Nat) : String × List Msg :=
  if personas.isEmpty || features.isEmpty then ("", [])
  else
    let fin := simulateFullNT oracle shuffle personas features rounds
    (String.intercalate ("\n") fin.transcript, fin.history)

/-- The fixed summary instruction wrapped around the transcript
(lines 712-723 of the source). -/
def summaryPrompt (transcript_md : String) : String :=
  ("You are an expert meeting summarizer. Analyze the virtual user board meeting transcript provided below.\n") ++
  ("Your summary MUST include these sections in markdown format:\n\n") ++
  ("1.  **Pros & Cons per Feature:** For each proposed feature, list the key advantages (Pros) and disadvantages or concerns (Cons) raised by the participants. Be specific.\n") ++
  ("2.  **Overall Sentiment & Key Takeaways per Persona:** Briefly describe each persona\x27s overall stance, highlighting their main points, priorities, or key concerns.\n") ++
  ("3.  **Points of Agreement & Disagreement:** Note any areas where personas strongly agreed or disagreed with each other.\n") ++
  ("4.  **Final Recommendation:** Provide a concise (1-3 sentences) go/no-go/conditional recommendation for the features, explicitly mentioning the rationale based on the discussion (e.g., priority, concerns raised).\n\n") ++
  ("---\n") ++ transcript_md ++ ("\n") ++ ("---\n") ++ ("Generate the summary now.")

/-- `summarise_meeting` (lines 704-731): empty (or whitespace-only)
transcript short-circuits to a fixed error string; otherwise one
completion call whose failure is caught and converted to an error string
that embeds the failure text.  The second parameter mirrors the unused
`conversation_history` argument of the source. -/
def summarise_meeting (ask : String → Except String String)
    (transcript_md : String) (conversation_history : List Msg := []) : String :=
  if pyStrip transcript_md = "" then "Error: Transcript was empty."
  else
    match ask (summaryPrompt transcript_md) with
    | .ok summary => summary
    | .error e => ("Error: Failed to generate meeting summary due to: ") ++ e

/-- JSON values, as produced by `json.loads` (numbers restricted to
integers; no claim depends on floats). -/
inductive JVal where
  | null
  | bool (b : Bool)
  | num (n : Int)
  | str (s : String)
  | arr (items : List JVal)
  | obj (fields : List (String × JVal))

/-- Dictionary lookup on a parsed JSON object. -/
def objGet (fields : List (String × JVal)) (key : String) : Option JVal :=
  match fields.find? (fun kv => kv.1 == key) with
  | some kv => some kv.2
  | none => none

mutual
/-- Python `str()` applied to a parsed JSON value (containers rendered
with `repr`-style elements). -/
def pyStr : JVal → String
  | .null => "None"
  | .bool b => if b then "True" else "False"
  | .num n => toString n
  | .str s => s
  | .arr items => ("[") ++ String.intercalate (", ") (pyStrList items) ++ ("]")
  | .obj fields => ("\x7b") ++ String.intercalate (", ") (pyPairList fields) ++ ("\x7d")

/-- Elements of a list rendered as Python `repr` does inside `str(list)`. -/
def pyStrList : List JVal → List String
  | [] => []
  | .str s :: vs => (("\x27") ++ s ++ ("\x27")) :: pyStrList vs
  | v :: vs => pyStr v :: pyStrList vs

/-- Key-value pairs rendered as Python `repr` does inside `str(dict)`. -/
def pyPairList : List (String × JVal) → List String
  | [] => []
  | (k, .str s) :: vs =>
    (("\x27") ++ k ++ ("\x27: \x27") ++ s ++ ("\x27")) :: pyPairList vs
  | (k, v) :: vs => (("\x27") ++ k ++ ("\x27: ") ++ pyStr v) :: pyPairList vs
end

/-- The six required persona fields (line 499 of the source). -/
def requiredKeys : List String :=
  ["name", "background", "quote", "sentiment", "pain_points", "inspired_by_cluster_id"]

/-- Validation of a single element of the parsed persona array
(lines 493-538).  `Except.error` models a raised exception that aborts
the whole stage (only `item.get("sentiment", "").lower()` can raise here,
when the sentiment value is not a string); `.ok none` models `continue`
(the element is dropped); `.ok (some p)` appends a persona. -/
def validateItem (item : JVal) : Except Unit (Option Persona) :=
  match item with
  | .obj fields =>
    if requiredKeys.all (fun k => (objGet fields k).isSome) then
      match (objGet fields ("sentiment")).getD .null with
      | .str sentRaw =>
        let sentiment := pyLower sentRaw
        if sentiment == "positive" || sentiment == "neutral" || sentiment == "negative" then
          match (objGet fields ("pain_points")).getD .null with
          | .arr pps =>
            if pps.all (fun j => match j with | .str _ => true | _ => false) then
              let cluster_id : Option String :=
                match (objGet fields ("inspired_by_cluster_id")).getD .null with
                | .null => none
                | .str s => some s
                | v => some (pyStr v)
              .ok (some
                { name := pyStr ((objGet fields ("name")).getD .null)
                  background := pyStr ((objGet fields ("background")).getD .null)
                  quote := pyStr ((objGet fields ("quote")).getD .null)
                  sentiment := sentiment
                  pain_points := pps.map pyStr
                  inspired_by_cluster_id := cluster_id })
            else .ok none
          | _ => .ok none
        else .ok none
      | _ => .error ()
    else .ok none
  | _ => .ok none

/-- The validation loop over the parsed array, accumulating surviving
personas in order; an exception aborts the loop. -/
def validateLoop : List JVal → List Persona → Except Unit (List Persona)
  | [], acc => .ok acc
  | item :: rest, acc =>
    match validateItem item with
    | .error e => .error e
    | .ok none => validateLoop rest acc
    | .ok (some p) => validateLoop rest (acc ++ [p])

/-- Persona extraction from a parsed JSON array: run the validation loop
(an exception is caught by the enclosing handler, which returns the empty
list), then truncate to `count` if more survived (lines 543-547). -/
def personasFromJson (parsed : List JVal) (count : Int) : List Persona :=
  match validateLoop parsed [] with
  | .error _ => []
  | .ok ps => if (ps.length : Int) > count then ps.take count.toNat else ps

/-- One cluster record as consumed by the generation prompts.  The
`avg_sentiment` field holds the already-`"%.2f"`-formatted value when
present (floating point formatting is outside the embedding; the value
only feeds prompt text).  Key-missing defaults of the raw dicts are
outside this typed model. -/
structure Cluster where
  keywords : List String
  sentiment_dist : List (String × Int)
  samples : List String
  avg_sentiment : Option String := none

/-- One line of the cluster summary block of the persona prompt
(lines 390-405). -/
def clusterSummaryLine (cid : String) (c : Cluster) : String :=
  let keywords_str := String.intercalate (", ") c.keywords
  let sentiment_info :=
    ("SentimentDist=[") ++
      String.intercalate (", ")
        (c.sentiment_dist.map (fun kv => kv.1 ++ (": ") ++ toString kv.2)) ++
      ("]") ++
      (match c.avg_sentiment with
       | some a => (" | AvgSentiment=") ++ a
       | none => "")
  let sample_feedback := c.samples.headD ("N/A")
  ("- Cluster ") ++ cid ++ (": Keywords=[") ++ keywords_str ++ ("] | ") ++
    sentiment_info ++ (" | Sample=\"") ++ sample_feedback.take 150 ++ ("...\"")

/-- The worked JSON example embedded in the persona prompt
(lines 415-444 of the source, a triple-quoted literal). -/
def personaJsonExample : String :=
  String.intercalate ("\n")
    [ ""
    , "    ```json"
    , "    ["
    , "      \x7b"
    , "        \"name\": \"Alex Chen\","
    , "        \"background\": \"Deep, diverse description of the persona\x27s background in 5-10 sentences\","
    , "        \"quote\": \"Finding new music I actually like feels harder than it should be.\","
    , "        \"sentiment\": \"neutral\","
    , "        \"pain_points\": ["
    , "          \"Music discovery algorithm often misses the mark\","
    , "          \"Too many ads in the free tier interrupt listening flow\","
    , "          \"Playlist organization options are limited\""
    , "        ],"
    , "        \"inspired_by_cluster_id\": \"3\""
    , "      \x7d,"
    , "      \x7b"
    , "        \"name\": \"Maria Garcia\","
    , "        \"background\": \"Deep, diverse description of the persona\x27s background in 5-10 sentences\","
    , "        \"quote\": \"I just want to quickly find a good podcast for my drive or something safe for the kids.\","
    , "        \"sentiment\": \"positive\","
    , "        \"pain_points\": ["
    , "          \"Difficult to manage separate profiles effectively on family plan\","
    , "          \"Podcast discovery feels cluttered\","
    , "          \"Lack of robust parental control features\""
    , "        ],"
    , "        \"inspired_by_cluster_id\": \"1\""
    , "      \x7d"
    , "    ]"
    , "    ```"
    , "    " ]

/-- The persona generation prompt (lines 446-464). -/
def personaPrompt (count : Int) (cluster_summary_str : String) : String :=
  ("You are an expert persona generator specializing in user experience research. Your task is to create exactly ") ++ toString count ++ (" distinct and deeply grounded Spotify user personas based on the provided user feedback cluster summaries.\n\n") ++
  ("**Requirements:**\n") ++
  ("1.  **Generate ") ++ toString count ++ (" Personas:** Create exactly this number.\n") ++
  ("2.  **Diversity:** Ensure personas have unique backgrounds, motivations, Spotify usage patterns, and personalities. Avoid stereotypes.\n") ++
  ("3.  **Grounded in Data:** Each persona\x27s details (background, quote, sentiment, pain points) MUST directly reflect themes from the provided cluster summaries. Assign `inspired_by_cluster_id` to the cluster ID that most influenced the persona.\n") ++
  ("4.  **Sentiment:** Use ONLY \x27positive\x27, \x27neutral\x27, or \x27negative\x27 for the `sentiment` field.\n") ++
  ("5.  **Pain Points:** List specific, concrete frustrations or challenges the user faces with Spotify, derived from cluster keywords and feedback.\n") ++
  ("6.  **JSON Output:** Return ONLY a valid JSON list containing the persona objects. Do NOT include any explanatory text before or after the JSON block.\n") ++
  ("7.  **Format:** Your response MUST be a valid JSON array starting with [ and ending with ]. Each persona object must have all required fields.\n\n") ++
  ("**Cluster Summaries:**\n") ++ cluster_summary_str ++ ("\n\n") ++
  ("**Required JSON Format Example:**\n") ++ personaJsonExample ++ ("\n\n") ++
  ("Generate the JSON output now. Remember to:\n") ++
  ("- Start with [\n") ++
  ("- End with ]\n") ++
  ("- Include all required fields for each persona\n") ++
  ("- Do not add any text before or after the JSON\n") ++
  ("- Ensure the JSON is properly formatted and valid")

/-- Markdown code-fence cleaning of the raw response (lines 473-478). -/
def cleanFences (raw : String) : String :=
  let c0 := pyStrip raw
  let c1 := if c0.startsWith ("```json") then c0.drop 7 else c0
  let c2 := if c1.endsWith ("```") then c1.dropRight 3 else c1
  pyStrip c2

/-- `generate_personas` (lines 362-566).  `ask` is the completion
service, `jparse` the external `json.loads` (returning `none` on a
decode error).  Any raised exception inside the big `try` block results
in the empty list. -/
def generate_personas (ask : String → Except String String)
    (jparse : String → Option JVal)
    (clusters : List (String × Cluster)) (count : Int) : List Persona :=
  if clusters.isEmpty then []
  else if count ≤ 0 then []
  else
    let cluster_items := clusters
    let num_to_select := min count.toNat cluster_items.length
    -- `elif num_to_select == 0: return []` fires only when the warning
    -- branch `num_to_select < count` did not, transcribed faithfully:
    if !(num_to_select < count.toNat) && num_to_select == 0 then []
    else
      let selected := cluster_items.take num_to_select
      let details := selected.map (fun kv => clusterSummaryLine kv.1 kv.2)
      if details.isEmpty then []
      else
        -- the source joins with the two-character sequence `\n`
        -- (a literal `"\\n"` in the Python file)
        let cluster_summary_str := String.intercalate ("\\n") details
        match ask (personaPrompt count cluster_summary_str) with
        | .error _ => []
        | .ok raw =>
          let cleaned := cleanFences raw
          if !(cleaned.startsWith ("[") && cleaned.endsWith ("]")) then []
          else
            match jparse cleaned with
            | none => []
            | some (.arr items) => personasFromJson items count
            | some _ => []

/-- The LangGraph run state (the `AgentState` TypedDict), polymorphic in
the cluster payload, which the pipeline nodes never inspect. -/
structure AgentState (κ : Type) where
  selected_clusters : κ
  features : List FeatureProposal
  personas : List Persona
  transcript : String
  conversation_history : List Msg
  summary : String
  error : Option String

/-- The four generation stages as fallible computations; `Except.error`
models an exception escaping the stage function into the node wrapper. -/
structure Stages (κ : Type) where
  ideate : κ → Except String (List FeatureProposal)
  gen_personas : κ → Except String (List Persona)
  board : List Persona → List FeatureProposal → Except String (String × List Msg)
  summarise : String → List Msg → Except String String

/-- Node `ideate` (lines 839-845): the entry node has no error check. -/
def run_feature_ideation (stg : Stages κ) (st : AgentState κ) : AgentState κ :=
  match stg.ideate st.selected_clusters with
  | .ok fs => { st with features := fs, error := none }
  | .error e => { st with error := some (("Feature Ideation Failed: ") ++ e) }

/-- Node `generate_personas` (lines 847-854): skipped (returns no
updates) when the error flag is set. -/
def run_persona_generation (stg : Stages κ) (st : AgentState κ) : AgentState κ :=
  if st.error.isSome then st
  else
    match stg.gen_personas st.selected_clusters with
    | .ok ps => { st with personas := ps, error := none }
    | .error e => { st with error := some (("Persona Generation Failed: ") ++ e) }

/-- Node `board` (lines 856-863): skipped when the error flag is set. -/
def run_board_simulation (stg : Stages κ) (st : AgentState κ) : AgentState κ :=
  if st.error.isSome then st
  else
    match stg.board st.personas st.features with
    | .ok th =>
      { st with transcript := th.1, conversation_history := th.2, error := none }
    | .error e => { st with error := some (("Board Simulation Failed: ") ++ e) }

/-- Node `generate_summary` (lines 865-872): skipped when the error flag
is set. -/
def run_summary_generation (stg : Stages κ) (st : AgentState κ) : AgentState κ :=
  if st.error.isSome then st
  else
    match stg.summarise st.transcript st.conversation_history with
    | .ok s => { st with summary := s, error := none }
    | .error e => { st with error := some (("Summary Generation Failed: ") ++ e) }

/-- The compiled linear pipeline
ideate → generate_personas → board → generate_summary (lines 874-890). -/
def build_pipeline (stg : Stages κ) (st : AgentState κ) : AgentState κ :=
  run_summary_generation stg
    (run_board_simulation stg
      (run_persona_generation stg
        (run_feature_ideation stg st)))

/-- The initial state constructed in `main` (lines 918-926). -/
def initAgentState (selected : κ) : AgentState κ :=
  { selected_clusters := selected, features := [], personas := []
    transcript := "", conversation_history := [], summary := ""
    error := none }

/-- Outcome of a run: the report text handed to the report writer and
whether the process exits successfully. -/
structure RunResult (ρ : Type) where
  report : ρ
  exitOk : Bool

/-- `main` after data loading (lines 914-952): invoke the pipeline, then
always call the report writer on the final state (all state keys are
present from the initial state, so the `.get` defaults never fire), and
exit non-zero when the error flag is set.  The report writer itself is
the formatting collaborator the specification excludes, so it is passed
in as a function producing an opaque report value. -/
def main_run (stg : Stages κ)
    (writeReport : κ → List FeatureProposal → List Persona → String → String → ρ)
    (selected : κ) : RunResult ρ :=
  let fin := build_pipeline stg (initAgentState selected)
  { report := writeReport fin.selected_clusters fin.features fin.personas
      fin.transcript fin.summary
    exitOk := fin.error.isNone }

/-! Concrete fixtures used for witnesses and counterexamples. -/

/-- A sample persona. -/
def pA : Persona :=
  { name := "Ava", background := "casual listener", quote := "it works"
    sentiment := "neutral", pain_points := ["too many ads"] }

/-- First of two personas sharing one name. -/
def pDup1 : Persona :=
  { name := "X", background := "first profile", quote := "q1"
    sentiment := "neutral", pain_points := ["a"] }

/-- Second of two personas sharing one name. -/
def pDup2 : Persona :=
  { name := "X", background := "second profile", quote := "q2"
    sentiment := "negative", pain_points := ["b"] }

/-- A sample feature proposal. -/
def fSleep : FeatureProposal := { id := 1, description := "Sleep Timer" }

/-- A second sample feature proposal. -/
def fLyrics : FeatureProposal := { id := 2, description := "Live Lyrics" }

/-- An oracle that always answers the same reply. -/
def constOracle : TurnOracle := fun _ _ _ => .ok ("hi")

/-- A deterministic oracle whose reply is the size of the visible memory
window, making information flow between turns observable. -/
def countOracle : TurnOracle := fun _ w _ => .ok (toString w.length)

/-- The identity shuffle (a permutation, as `random.shuffle` is). -/
def idShuffle : Shuffle := fun _ l => l

/-- A sample cluster record. -/
def demoCluster : Cluster :=
  { keywords := ["ads", "offline"], sentiment_dist := [("negative", 7)]
    samples := ["too many ads lately"] }

/-! Theorems. -/

/-- Every persona turn appends exactly one assistant message to the
global history. -/
theorem personaTurn_history (oracle : TurnOracle) (personas : List Persona)
    (features : List FeatureProposal) (tally : Bool) (facIn : String)
    (st : SimState) (p : Persona) :
    ∃ s, (personaTurn oracle personas features tally facIn st p).history =
      st.history ++ [Msg.ai s] := by
  cases h : oracle (chainFor personas p) (lastN 5 (st.mems p.name)) facIn with
  | ok raw => exact ⟨pyStrip raw, by simp [personaTurn, h]⟩
  | error e => exact ⟨errPlaceholder, by simp [personaTurn, h]⟩

/-- Folding the persona turns of one round appends one assistant message
per persona in the turn order. -/
theorem foldTurns_history (oracle : TurnOracle) (personas : List Persona)
    (features : List FeatureProposal) (tally : Bool) (facIn : String) :
    ∀ (order : List Persona) (st : SimState),
    ∃ l : List String, l.length = order.length ∧
      (order.foldl (personaTurn oracle personas features tally facIn) st).history =
        st.history ++ l.map Msg.ai := by
  intro order
  induction order with
  | nil => exact fun st => ⟨[], rfl, by simp⟩
  | cons p rest ih =>
    intro st
    obtain ⟨s, hs⟩ := personaTurn_history oracle personas features tally facIn st p
    obtain ⟨l, hl, hrest⟩ :=
      ih (personaTurn oracle personas features tally facIn st p)
    exact ⟨s :: l, by simp [hl], by simp [hrest, hs]⟩

/-- One round appends the facilitator message followed by one assistant
message per shuffled persona. -/
theorem runRound_history (oracle : TurnOracle) (shuffle : Shuffle)
    (personas : List Persona) (features : List FeatureProposal)
    (rounds : Nat) (st : SimState) (r : Nat) :
    ∃ l : List String, l.length = (shuffle r personas).length ∧
      (runRound oracle shuffle personas features rounds st r).history =
        st.history ++ Msg.human (facInput features r) :: l.map Msg.ai := by
  obtain ⟨l, hl, h⟩ := foldTurns_history oracle personas features (r == rounds)
    (facInput features r) (shuffle r personas)
    { st with transcript := st.transcript ++ [facHeader r, facInput features r]
              history := st.history ++ [Msg.human (facInput features r)] }
  exact ⟨l, hl, by simpa [runRound] using h⟩

/-- Folding a list of rounds appends, per round, one facilitator block:
the round's facilitator message followed by that round's replies. -/
theorem foldRounds_history (oracle : TurnOracle) (shuffle : Shuffle)
    (personas : List Persona) (features : List FeatureProposal) (rounds : Nat) :
    ∀ (rs : List Nat) (st : SimState),
    ∃ ls : List (List String), ls.length = rs.length ∧
      (∀ l ∈ ls, ∃ r ∈ rs, l.length = (shuffle r personas).length) ∧
      (rs.foldl (runRound oracle shuffle personas features rounds) st).history =
        st.history ++
          (rs.zip ls).flatMap
            (fun rl => Msg.human (facInput features rl.1) :: rl.2.map Msg.ai) := by
  intro rs
  induction rs with
  | nil => exact fun st => ⟨[], rfl, by simp, by simp⟩
  | cons r rest ih =>
    intro st
    obtain ⟨l, hl, hr⟩ :=
      runRound_history oracle shuffle personas features rounds st r
    obtain ⟨ls, hlen, hmem, hrest⟩ :=
      ih (runRound oracle shuffle personas features rounds st r)
    refine ⟨l :: ls, by simp [hlen], ?_, ?_⟩
    · intro x hx
      rcases List.mem_cons.mp hx with hx | hx
      · exact ⟨r, List.mem_cons_self r rest, hx ▸ hl⟩
      · obtain ⟨r2, hr2, hx2⟩ := hmem x hx
        exact ⟨r2, List.mem_cons_of_mem r hr2, hx2⟩
    · simp [hrest, hr, List.zip_cons_cons, List.flatMap_cons, List.append_assoc]

/-- Counting facilitator entries of the per-round block structure. -/
theorem bind_block_countHuman (features : List FeatureProposal) :
    ∀ (pairs : List (Nat × List String)),
    ((pairs.flatMap
        (fun rl => Msg.human (facInput features rl.1) :: rl.2.map Msg.ai)).countP
      Msg.isHumanMsg) = pairs.length := by
  intro pairs
  induction pairs with
  | nil => rfl
  | cons pr rest ih =>
    have hc : (Msg.isHumanMsg ∘ Msg.ai) = fun _ => false := rfl
    simp only [List.flatMap_cons, List.countP_cons, List.countP_append,
      List.countP_map, hc, List.countP_false, ih, Msg.isHumanMsg]
    simp [Nat.add_comm]

/-- Counting assistant entries of the per-round block structure. -/
theorem bind_block_countAi (features : List FeatureProposal) (P : Nat) :
    ∀ (pairs : List (Nat × List String)), (∀ pr ∈ pairs, pr.2.length = P) →
    ((pairs.flatMap
        (fun rl => Msg.human (facInput features rl.1) :: rl.2.map Msg.ai)).countP
      Msg.isAiMsg) = pairs.length * P := by
  intro pairs
  induction pairs with
  | nil => intro _; simp
  | cons pr rest ih =>
    intro h
    have hc : (Msg.isAiMsg ∘ Msg.ai) = fun _ => true := rfl
    have h1 : pr.2.length = P := h pr (List.mem_cons_self pr rest)
    have h2 := ih (fun x hx => h x (List.mem_cons_of_mem pr hx))
    simp only [List.flatMap_cons, List.countP_cons, List.countP_append,
      List.countP_map, hc, List.countP_true, h1, h2, Msg.isAiMsg]
    simp [Nat.succ_mul]
    omega

/-- C1 (amended): the facilitator message appended by a round depends
only on the round index `r`, not on the configured round count: round 1
presents all feature proposals and asks for excitement/concerns, round 2
asks for a risk or success metric per feature, and every round `r ≥ 3` —
the final round when `R ≥ 3`, but equally every intermediate round
`3 ≤ r ≤ R-1` — receives the prioritise/trade-off prompt.  (When `R = 2`
the final round receives the round-2 risk prompt, and when `R = 1` the
single round receives the round-1 prompt.) -/
theorem C1_facilitator_prompt (oracle : TurnOracle) (shuffle : Shuffle)
    (personas : List Persona) (features : List FeatureProposal)
    (rounds : Nat) (st : SimState) (r : Nat) :
    ((runRound oracle shuffle personas features rounds st r).history)[st.history.length]? =
      some (Msg.human
        (if r = 1 then introMsg features
         else if r = 2 then riskMsg
         else prioritiseMsg)) := by
  obtain ⟨l, _, h⟩ := runRound_history oracle shuffle personas features rounds st r
  rw [h, List.getElem?_append_right (Nat.le_refl _)]
  simp [facInput]

/-- C1 counterexample: with 4 configured rounds the facilitator message
of round 3 (an intermediate round, `2 ≤ 3 ≤ R-1`) is the
prioritise/trade-off prompt, not the round-2 risk prompt the claim
assigns to it; and with 2 configured rounds the final round receives the
risk prompt, not the pick-one-feature prompt the claim assigns to the
final round. -/
theorem C1_counterexample :
    (simulate_board constOracle idShuffle [pA] [fSleep] 4).2[4]? =
      some (Msg.human prioritiseMsg) ∧
    prioritiseMsg ≠ riskMsg ∧
    (simulate_board constOracle idShuffle [pA] [fSleep] 2).2[2]? =
      some (Msg.human riskMsg) ∧
    riskMsg ≠ prioritiseMsg := by
  refine ⟨by decide, by decide, by decide, by decide⟩

/-- C2: for personas `P ≠ 0`, features nonempty and rounds `R ≥ 1`, the
global history consists of exactly `R` per-round blocks, each one
facilitator (human) entry followed by `P` persona (assistant) entries in
some order; in particular it has exactly `R` facilitator entries and
`R*P` assistant entries. -/
theorem C2_history_shape (oracle : TurnOracle) (shuffle : Shuffle)
    (personas : List Persona) (features : List FeatureProposal) (rounds : Nat)
    (hp : personas ≠ []) (hf : features ≠ []) (hr : 1 ≤ rounds)
    (hs : ∀ r, (shuffle r personas).Perm personas) :
    ∃ ls : List (List String),
      ls.length = rounds ∧
      (∀ l ∈ ls, l.length = personas.length) ∧
      (simulate_board oracle shuffle personas features rounds).2 =
        ((List.range' 1 rounds).zip ls).flatMap
          (fun rl => Msg.human (facInput features rl.1) :: rl.2.map Msg.ai) ∧
      ((simulate_board oracle shuffle personas features rounds).2.countP
        Msg.isHumanMsg) = rounds ∧
      ((simulate_board oracle shuffle personas features rounds).2.countP
        Msg.isAiMsg) = rounds * personas.length := by
  have hb : (personas.isEmpty || features.isEmpty) = false := by
    simp [hp, hf]
  obtain ⟨ls, hlen, hmem, hhist⟩ :=
    foldRounds_history oracle shuffle personas features rounds
      (List.range' 1 rounds) initState
  have hlens : ∀ l ∈ ls, l.length = personas.length := by
    intro l hl
    obtain ⟨r, _, hx⟩ := hmem l hl
    rw [hx]
    exact (hs r).length_eq
  have hsim : (simulate_board oracle shuffle personas features rounds).2 =
      ((List.range' 1 rounds).zip ls).flatMap
        (fun rl => Msg.human (facInput features rl.1) :: rl.2.map Msg.ai) := by
    simp only [simulate_board, hb, Bool.false_eq_true, if_false]
    simpa [simulateFull, initState] using hhist
  have hzlen : ((List.range' 1 rounds).zip ls).length = rounds := by
    simp [List.length_zip, hlen]
  have hzmem : ∀ pr ∈ (List.range' 1 rounds).zip ls, pr.2.length = personas.length := by
    intro pr hpr
    exact hlens pr.2 (List.of_mem_zip hpr).2
  refine ⟨ls, by simp [hlen], hlens, hsim, ?_, ?_⟩
  · rw [hsim, bind_block_countHuman features, hzlen]
  · rw [hsim, bind_block_countAi features personas.length _ hzmem, hzlen]

/-- Witness for C2 at a concrete input (one persona, one feature, two
rounds, identity shuffle). -/
theorem C2_witness :
    ∃ ls : List (List String),
      ls.length = 2 ∧
      (∀ l ∈ ls, l.length = ([pA] : List Persona).length) ∧
      (simulate_board constOracle idShuffle [pA] [fSleep] 2).2 =
        ((List.range' 1 2).zip ls).flatMap
          (fun rl => Msg.human (facInput [fSleep] rl.1) :: rl.2.map Msg.ai) ∧
      ((simulate_board constOracle idShuffle [pA] [fSleep] 2).2.countP
        Msg.isHumanMsg) = 2 ∧
      ((simulate_board constOracle idShuffle [pA] [fSleep] 2).2.countP
        Msg.isAiMsg) = 2 * ([pA] : List Persona).length :=
  C2_history_shape constOracle idShuffle [pA] [fSleep] 2
    (by decide) (by decide) (by decide) (fun _ => List.Perm.refl _)

/-- A persona turn outside the final round leaves the vote tally
untouched. -/
theorem personaTurn_votes_off (oracle : TurnOracle) (personas : List Persona)
    (features : List FeatureProposal) (facIn : String) (st : SimState)
    (p : Persona) :
    (personaTurn oracle personas features false facIn st p).votes = st.votes := by
  cases h : oracle (chainFor personas p) (lastN 5 (st.mems p.name)) facIn <;>
    simp [personaTurn, h]

/-- Folding persona turns with the tally disabled preserves the votes. -/
theorem foldTurns_votes_off (oracle : TurnOracle) (personas : List Persona)
    (features : List FeatureProposal) (facIn : String) :
    ∀ (order : List Persona) (st : SimState),
    (order.foldl (personaTurn oracle personas features false facIn) st).votes =
      st.votes := by
  intro order
  induction order with
  | nil => exact fun st => rfl
  | cons p rest ih =>
    intro st
    rw [List.foldl_cons, ih, personaTurn_votes_off]

/-- C3: vote tallying happens only during the final round — any round
`r ≠ R` leaves the tally untouched; in a tallying turn the tally is
updated by scanning the feature list against the very reply recorded in
the history; the scan increments exactly the first feature (in list
order) whose description occurs case-insensitively in the reply, leaves
every other entry unchanged, and stops there; a reply matching no
feature changes nothing. -/
theorem C3_vote_tally (oracle : TurnOracle) (shuffle : Shuffle)
    (personas : List Persona) (features : List FeatureProposal) :
    (∀ (rounds : Nat) (st : SimState) (r : Nat), r ≠ rounds →
        (runRound oracle shuffle personas features rounds st r).votes = st.votes) ∧
    (∀ (facIn : String) (st : SimState) (p : Persona),
        ∃ reply,
          (personaTurn oracle personas features true facIn st p).history =
            st.history ++ [Msg.ai reply] ∧
          (personaTurn oracle personas features true facIn st p).votes =
            tallyReply features reply st.votes) ∧
    (∀ (l1 l2 : List FeatureProposal) (f : FeatureProposal) (reply : String)
        (votes : String → Nat),
        (∀ g ∈ l1, containsCI reply g.description = false) →
        containsCI reply f.description = true →
        ∀ d, tallyReply (l1 ++ f :: l2) reply votes d =
          if d = f.description then votes d + 1 else votes d) ∧
    (∀ (fs : List FeatureProposal) (reply : String) (votes : String → Nat),
        (∀ g ∈ fs, containsCI reply g.description = false) →
        tallyReply fs reply votes = votes) := by
  refine ⟨fun rounds st r hne => ?_, fun facIn st p => ?_,
    fun l1 l2 f reply votes => ?_, fun fs reply votes => ?_⟩
  · have hb : (r == rounds) = false := by simp [hne]
    have hfold := foldTurns_votes_off oracle personas features
      (facInput features r) (shuffle r personas)
      { st with transcript := st.transcript ++ [facHeader r, facInput features r]
                history := st.history ++ [Msg.human (facInput features r)] }
    simpa [runRound, hb] using hfold
  · cases h : oracle (chainFor personas p) (lastN 5 (st.mems p.name)) facIn with
    | ok raw =>
      exact ⟨pyStrip raw, by simp [personaTurn, h], by simp [personaTurn, h]⟩
    | error e =>
      exact ⟨errPlaceholder, by simp [personaTurn, h], by simp [personaTurn, h]⟩
  · induction l1 with
    | nil =>
      intro _ hf d
      simp [tallyReply, hf, bumpVote]
    | cons g gs ih =>
      intro hnone hf d
      have hg : containsCI reply g.description = false :=
        hnone g (List.mem_cons_self g gs)
      have ih2 := ih (fun x hx => hnone x (List.mem_cons_of_mem g hx)) hf d
      simpa [tallyReply, hg] using ih2
  · induction fs with
    | nil => intro _; rfl
    | cons g gs ih =>
      intro h
      have hg : containsCI reply g.description = false :=
        h g (List.mem_cons_self g gs)
      have ih2 := ih (fun x hx => h x (List.mem_cons_of_mem g hx))
      simp [tallyReply, hg, ih2]

/-- Witness for C3 at concrete inputs: a non-final round leaves the
tally untouched, and a reply containing both feature descriptions bumps
only the first one. -/
theorem C3_witness :
    (runRound constOracle idShuffle [pA] [fSleep] 3 initState 1).votes =
      initState.votes ∧
    tallyReply [fSleep, fLyrics] ("I want the sleep timer and live lyrics")
      (fun _ => 0) fSleep.description = 0 + 1 ∧
    tallyReply [fSleep, fLyrics] ("I want the sleep timer and live lyrics")
      (fun _ => 0) fLyrics.description = 0 := by
  have hmain := C3_vote_tally constOracle idShuffle [pA] [fSleep]
  have hfirst := hmain.2.2.1 [] [fLyrics] fSleep
    ("I want the sleep timer and live lyrics") (fun _ => 0)
    (by simp) (by decide)
  refine ⟨hmain.1 3 initState 1 (by decide), ?_, ?_⟩
  · have h1 := hfirst fSleep.description
    simpa using h1
  · have h2 := hfirst fLyrics.description
    have hne : fLyrics.description ≠ fSleep.description := by decide
    simpa [hne] using h2

/-- A persona turn and its tally-free counterpart agree on transcript,
history and memories when started from agreeing states. -/
theorem personaTurn_noTally_agree (oracle : TurnOracle) (personas : List Persona)
    (features : List FeatureProposal) (tally : Bool) (facIn : String)
    (st : SimState) (stNT : SimStateNT)
    (ht : st.transcript = stNT.transcript) (hh : st.history = stNT.history)
    (hm : st.mems = stNT.mems) (p : Persona) :
    (personaTurn oracle personas features tally facIn st p).transcript =
      (personaTurnNT oracle personas facIn stNT p).transcript ∧
    (personaTurn oracle personas features tally facIn st p).history =
      (personaTurnNT oracle personas facIn stNT p).history ∧
    (personaTurn oracle personas features tally facIn st p).mems =
      (personaTurnNT oracle personas facIn stNT p).mems := by
  cases h : oracle (chainFor personas p) (lastN 5 (stNT.mems p.name)) facIn with
  | ok raw =>
    refine ⟨?_, ?_, ?_⟩ <;> simp [personaTurn, personaTurnNT, hm, ht, hh, h]
  | error e =>
    refine ⟨?_, ?_, ?_⟩ <;> simp [personaTurn, personaTurnNT, hm, ht, hh, h]

/-- Turn folds with and without the tally agree on everything but the
votes. -/
theorem foldTurns_noTally_agree (oracle : TurnOracle) (personas : List Persona)
    (features : List FeatureProposal) (tally : Bool) (facIn : String) :
    ∀ (order : List Persona) (st : SimState) (stNT : SimStateNT),
      st.transcript = stNT.transcript → st.history = stNT.history →
      st.mems = stNT.mems →
      (order.foldl (personaTurn oracle personas features tally facIn) st).transcript =
        (order.foldl (personaTurnNT oracle personas facIn) stNT).transcript ∧
      (order.foldl (personaTurn oracle personas features tally facIn) st).history =
        (order.foldl (personaTurnNT oracle personas facIn) stNT).history ∧
      (order.foldl (personaTurn oracle personas features tally facIn) st).mems =
        (order.foldl (personaTurnNT oracle personas facIn) stNT).mems := by
  intro order
  induction order with
  | nil => exact fun st stNT ht hh hm => ⟨ht, hh, hm⟩
  | cons p rest ih =>
    intro st stNT ht hh hm
    obtain ⟨ht2, hh2, hm2⟩ :=
      personaTurn_noTally_agree oracle personas features tally facIn st stNT
        ht hh hm p
    exact ih _ _ ht2 hh2 hm2

/-- Rounds with and without the tally agree on everything but the
votes. -/
theorem runRound_noTally_agree (oracle : TurnOracle) (shuffle : Shuffle)
    (personas : List Persona) (features : List FeatureProposal) (rounds : Nat)
    (st : SimState) (stNT : SimStateNT)
    (ht : st.transcript = stNT.transcript) (hh : st.history = stNT.history)
    (hm : st.mems = stNT.mems) (r : Nat) :
    (runRound oracle shuffle personas features rounds st r).transcript =
      (runRoundNT oracle shuffle personas features stNT r).transcript ∧
    (runRound oracle shuffle personas features rounds st r).history =
      (runRoundNT oracle shuffle personas features stNT r).history ∧
    (runRound oracle shuffle personas features rounds st r).mems =
      (runRoundNT oracle shuffle personas features stNT r).mems := by
  have := foldTurns_noTally_agree oracle personas features (r == rounds)
    (facInput features r) (shuffle r personas)
    { st with transcript := st.transcript ++ [facHeader r, facInput features r]
              history := st.history ++ [Msg.human (facInput features r)] }
    { stNT with
        transcript := stNT.transcript ++ [facHeader r, facInput features r]
        history := stNT.history ++ [Msg.human (facInput features r)] }
    (by simp [ht]) (by simp [hh]) (by simpa using hm)
  simpa [runRound, runRoundNT] using this

/-- The whole round folds agree on everything but the votes. -/
theorem foldRounds_noTally_agree (oracle : TurnOracle) (shuffle : Shuffle)
    (personas : List Persona) (features : List FeatureProposal) (rounds : Nat) :
    ∀ (rs : List Nat) (st : SimState) (stNT : SimStateNT),
      st.transcript = stNT.transcript → st.history = stNT.history →
      st.mems = stNT.mems →
      (rs.foldl (runRound oracle shuffle personas features rounds) st).transcript =
        (rs.foldl (runRoundNT oracle shuffle personas features) stNT).transcript ∧
      (rs.foldl (runRound oracle shuffle personas features rounds) st).history =
        (rs.foldl (runRoundNT oracle shuffle personas features) stNT).history := by
  intro rs
  induction rs with
  | nil => exact fun st stNT ht hh hm => ⟨ht, hh⟩
  | cons r rest ih =>
    intro st stNT ht hh hm
    obtain ⟨ht2, hh2, hm2⟩ :=
      runRound_noTally_agree oracle shuffle personas features rounds st stNT
        ht hh hm r
    exact ih _ _ ht2 hh2 hm2

/-- C9: the vote tally never affects or appears in the returned result —
`simulate_board` returns exactly what the tally-free engine returns, and
the tally itself is not part of the returned pair. -/
theorem C9_votes_discarded (oracle : TurnOracle) (shuffle : Shuffle)
    (personas : List Persona) (features : List FeatureProposal) (rounds : Nat) :
    simulate_board oracle shuffle personas features rounds =
      simulate_board_noTally oracle shuffle personas features rounds := by
  by_cases hb : (personas.isEmpty || features.isEmpty)
  · simp [simulate_board, simulate_board_noTally, hb]
  · obtain ⟨ht, hh⟩ :=
      foldRounds_noTally_agree oracle shuffle personas features rounds
        (List.range' 1 rounds) initState
        { transcript := [], history := [], mems := fun _ => [] }
        rfl rfl rfl
    simp only [simulate_board, simulate_board_noTally, hb, if_false,
      Bool.false_eq_true]
    rw [show simulateFull oracle shuffle personas features rounds =
        (List.range' 1 rounds).foldl
          (runRound oracle shuffle personas features rounds) initState from rfl]
    rw [show simulateFullNT oracle shuffle personas features rounds =
        (List.range' 1 rounds).foldl
          (runRoundNT oracle shuffle personas features)
          { transcript := [], history := [], mems := fun _ => [] } from rfl]
    rw [ht, hh]

/-- Attribution survives appending to the transcript (it is append-only). -/
theorem attributedTo_append (n o : String) (tr ext : List String)
    (h : AttributedTo n o tr) : AttributedTo n o (tr ++ ext) := by
  obtain ⟨k, h1, h2⟩ := h
  have hk1 : k + 1 < tr.length := (List.getElem?_eq_some.mp h2).1
  have hk : k < tr.length := Nat.lt_of_succ_lt hk1
  refine ⟨k, ?_, ?_⟩
  · rw [List.getElem?_append, if_pos hk]
    exact h1
  · rw [List.getElem?_append, if_pos hk1]
    exact h2

/-- The memory invariant only depends on the memories and the
transcript, and survives extending the transcript. -/
theorem memInv_of_extend (features : List FeatureProposal) (rounds : Nat)
    (st st2 : SimState) (ext : List String)
    (hm : st2.mems = st.mems) (ht : st2.transcript = st.transcript ++ ext)
    (h : MemInv features rounds st) : MemInv features rounds st2 := by
  intro n pr hpr
  rw [hm] at hpr
  obtain ⟨hf, ha⟩ := h n pr hpr
  exact ⟨hf, ht ▸ attributedTo_append n pr.2 st.transcript ext ha⟩

/-- One persona turn preserves the memory invariant, provided the input
it stores is one of the run's facilitator messages. -/
theorem personaTurn_memInv (oracle : TurnOracle) (personas : List Persona)
    (features : List FeatureProposal) (rounds : Nat) (tally : Bool)
    (facIn : String) (st : SimState) (p : Persona)
    (hfac : IsFacMsg features rounds facIn)
    (hinv : MemInv features rounds st) :
    MemInv features rounds (personaTurn oracle personas features tally facIn st p) := by
  cases h : oracle (chainFor personas p) (lastN 5 (st.mems p.name)) facIn with
  | error e =>
    refine memInv_of_extend features rounds st _
      [personaHeader p.name, errPlaceholder] ?_ ?_ hinv <;>
      simp [personaTurn, h]
  | ok raw =>
    have e1 : (personaTurn oracle personas features tally facIn st p).transcript =
        st.transcript ++ [personaHeader p.name, pyStrip raw] := by
      simp [personaTurn, h]
    have e2 : (personaTurn oracle personas features tally facIn st p).mems =
        updFn st.mems p.name (st.mems p.name ++ [(facIn, raw)]) := by
      simp [personaTurn, h]
    intro n pr hpr
    rw [e2] at hpr
    rw [e1]
    by_cases hn : n = p.name
    · subst hn
      rw [show updFn st.mems p.name (st.mems p.name ++ [(facIn, raw)]) p.name =
          st.mems p.name ++ [(facIn, raw)] by simp [updFn]] at hpr
      rcases List.mem_append.mp hpr with hold | hnew
      · obtain ⟨hf, ha⟩ := hinv p.name pr hold
        exact ⟨hf, attributedTo_append p.name pr.2 st.transcript _ ha⟩
      · have hpr2 : pr = (facIn, raw) := List.mem_singleton.mp hnew
        subst hpr2
        refine ⟨hfac, st.transcript.length, ?_, ?_⟩
        · rw [List.getElem?_append_right (Nat.le_refl _)]
          simp
        · rw [List.getElem?_append_right (Nat.le_succ_of_le (Nat.le_refl _))]
          simp
    · rw [show updFn st.mems p.name (st.mems p.name ++ [(facIn, raw)]) n =
          st.mems n by simp [updFn, hn]] at hpr
      obtain ⟨hf, ha⟩ := hinv n pr hpr
      exact ⟨hf, attributedTo_append n pr.2 st.transcript _ ha⟩

/-- Invariant preservation along a left fold. -/
theorem foldl_inv {σ α : Type} (P : σ → Prop) (f : σ → α → σ) :
    ∀ (l : List α) (s : σ),
      (∀ s2 a, a ∈ l → P s2 → P (f s2 a)) → P s → P (l.foldl f s) := by
  intro l
  induction l with
  | nil => exact fun s _ h => h
  | cons a rest ih =>
    intro s hstep h
    exact ih _ (fun s2 b hb => hstep s2 b (List.mem_cons_of_mem a hb))
      (hstep s a (List.mem_cons_self a rest) h)

/-- One round preserves the memory invariant when its index lies in
`1..rounds`. -/
theorem runRound_memInv (oracle : TurnOracle) (shuffle : Shuffle)
    (personas : List Persona) (features : List FeatureProposal) (rounds : Nat)
    (st : SimState) (r : Nat) (h1 : 1 ≤ r) (h2 : r ≤ rounds)
    (hinv : MemInv features rounds st) :
    MemInv features rounds (runRound oracle shuffle personas features rounds st r) := by
  refine foldl_inv (MemInv features rounds)
    (personaTurn oracle personas features (r == rounds) (facInput features r))
    (shuffle r personas)
    { st with transcript := st.transcript ++ [facHeader r, facInput features r]
              history := st.history ++ [Msg.human (facInput features r)] }
    (fun s2 a _ hP =>
      personaTurn_memInv oracle personas features rounds (r == rounds)
        (facInput features r) s2 a ⟨r, h1, h2, rfl⟩ hP)
    (memInv_of_extend features rounds st _ [facHeader r, facInput features r]
      rfl rfl hinv)

/-- The final state of the simulation satisfies the memory invariant. -/
theorem simulateFull_memInv (oracle : TurnOracle) (shuffle : Shuffle)
    (personas : List Persona) (features : List FeatureProposal) (rounds : Nat) :
    MemInv features rounds (simulateFull oracle shuffle personas features rounds) := by
  refine foldl_inv (MemInv features rounds)
    (runRound oracle shuffle personas features rounds)
    (List.range' 1 rounds) initState (fun s2 r hr hP => ?_) (fun n pr hpr => ?_)
  · have hm := List.mem_range'_1.mp hr
    exact runRound_memInv oracle shuffle personas features rounds s2 r hm.1
      (by omega) hP
  · simp [initState] at hpr

/-- C4 (amended): persona memories are keyed by persona name, so provided
the persona names are pairwise distinct, each persona's private memory is
written only during that persona's own turns — a turn of a persona with a
different name never touches it — and every pair it ever holds consists
of a facilitator message of the run together with a reply the transcript
attributes to that persona itself; the global transcript is never fed
back into any memory.  (Memories only grow, so every intermediate window,
a suffix of at most 5 entries of the current memory, enjoys the same
property.) -/
theorem C4_memory_privacy (oracle : TurnOracle) (shuffle : Shuffle)
    (personas : List Persona) (features : List FeatureProposal) (rounds : Nat)
    (hnames : (personas.map Persona.name).Nodup) :
    (∀ (tally : Bool) (facIn : String) (st : SimState) (q : Persona) (n : String),
        q.name ≠ n →
        (personaTurn oracle personas features tally facIn st q).mems n =
          st.mems n) ∧
    (∀ p ∈ personas,
        ∀ pr ∈ (simulateFull oracle shuffle personas features rounds).mems p.name,
        IsFacMsg features rounds pr.1 ∧
        AttributedTo p.name pr.2
          (simulateFull oracle shuffle personas features rounds).transcript) := by
  refine ⟨fun tally facIn st q n hq => ?_, fun p _ pr hpr => ?_⟩
  · cases h : oracle (chainFor personas q) (lastN 5 (st.mems q.name)) facIn with
    | ok raw => simp [personaTurn, h, updFn, Ne.symm hq]
    | error e => simp [personaTurn, h]
  · exact simulateFull_memInv oracle shuffle personas features rounds p.name pr hpr

/-- Witness for C4 at a concrete input: distinct names, the frame part
applied to a foreign name, and the invariant applied to the single
stored pair of the one-round run. -/
theorem C4_witness :
    (([pA] : List Persona).map Persona.name).Nodup ∧
    (personaTurn constOracle [pA] [fSleep] false riskMsg initState pDup1).mems
      ("Z") = initState.mems ("Z") ∧
    (IsFacMsg [fSleep] 1 (introMsg [fSleep], ("hi")).1 ∧
      AttributedTo pA.name (introMsg [fSleep], ("hi")).2
        (simulateFull constOracle idShuffle [pA] [fSleep] 1).transcript) := by
  have hmain := C4_memory_privacy constOracle idShuffle [pA] [fSleep] 1 (by decide)
  refine ⟨by decide, hmain.1 false riskMsg initState pDup1 ("Z") (by decide), ?_⟩
  exact hmain.2 pA (by decide) (introMsg [fSleep], ("hi")) (by decide)

/-- C4 counterexample: two distinct personas sharing the name `"X"`
share one memory object (`memories[p.name]`), so after one round the
private memory of the second persona contains the pair whose output
`"0"` is the reply emitted during the first persona's turn (the first
assistant entry of the history) — the reply text of another persona.
The oracle used answers the size of the visible window, so the second
reply `"1"` also proves the first persona's reply was visible in the
second persona's window. -/
theorem C4_counterexample :
    pDup1 ≠ pDup2 ∧ pDup1.name = pDup2.name ∧
    (simulateFull countOracle idShuffle [pDup1, pDup2] [fSleep] 1).history =
      [Msg.human (introMsg [fSleep]), Msg.ai ("0"), Msg.ai ("1")] ∧
    (simulateFull countOracle idShuffle [pDup1, pDup2] [fSleep] 1).mems
        pDup2.name =
      [(introMsg [fSleep], ("0")), (introMsg [fSleep], ("1"))] := by
  refine ⟨by decide, by decide, by decide, by decide⟩

/-- C7: for every input where the persona list or the feature list is
empty, `simulate_board` returns `("", [])`; the result moreover does not
depend on the completion oracle or the shuffle at all (the extensional
form of "no completion-service call is made"). -/
theorem C7_empty_inputs (oracle : TurnOracle) (shuffle : Shuffle)
    (personas : List Persona) (features : List FeatureProposal) (rounds : Nat)
    (h : personas = [] ∨ features = []) :
    simulate_board oracle shuffle personas features rounds = ("", []) ∧
    ∀ (oracle2 : TurnOracle) (shuffle2 : Shuffle),
      simulate_board oracle shuffle personas features rounds =
        simulate_board oracle2 shuffle2 personas features rounds := by
  have hb : (personas.isEmpty || features.isEmpty) = true := by
    rcases h with h | h <;> simp [h]
  refine ⟨?_, fun o2 s2 => ?_⟩ <;> simp [simulate_board, hb]

/-- Witness for C7 at a concrete input. -/
theorem C7_witness :
    simulate_board constOracle idShuffle [] [fSleep] 3 = ("", []) :=
  (C7_empty_inputs constOracle idShuffle [] [fSleep] 3 (Or.inl rfl)).1

/-- C10: for every clusters mapping and every requested count `≤ 0`,
`generate_personas` returns the empty list, independently of the
completion oracle and the JSON parser (so no completion call is made). -/
theorem C10_nonpositive_count (ask : String → Except String String)
    (jparse : String → Option JVal) (clusters : List (String × Cluster))
    (count : Int) (h : count ≤ 0) :
    generate_personas ask jparse clusters count = [] ∧
    ∀ (ask2 : String → Except String String) (jparse2 : String → Option JVal),
      generate_personas ask jparse clusters count =
        generate_personas ask2 jparse2 clusters count := by
  refine ⟨?_, fun a2 j2 => ?_⟩ <;>
    by_cases hc : clusters.isEmpty <;> simp [generate_personas, hc, h]

/-- Witness for C10 at a concrete input. -/
theorem C10_witness :
    generate_personas (fun _ => .error ("down")) (fun _ => none)
      [(("0"), demoCluster)] 0 = [] :=
  (C10_nonpositive_count (fun _ => .error ("down")) (fun _ => none)
    [(("0"), demoCluster)] 0 (le_refl 0)).1

/-- C6 counterexample: the string returned when the completion call
fails embeds the failure text, so it is not a fixed error string — two
different failures yield two different results. -/
theorem C6_counterexample :
    summarise_meeting (fun _ => .error ("E1")) ("x") =
      ("Error: Failed to generate meeting summary due to: E1") ∧
    summarise_meeting (fun _ => .error ("E2")) ("x") =
      ("Error: Failed to generate meeting summary due to: E2") ∧
    summarise_meeting (fun _ => .error ("E1")) ("x") ≠
      summarise_meeting (fun _ => .error ("E2")) ("x") := by
  refine ⟨rfl, rfl, ?_⟩
  decide

/-- C6 (amended): an empty or whitespace-only transcript yields the
fixed string `"Error: Transcript was empty."` independently of the
completion oracle (no service call), and a failing completion call is
caught and converted to an error string with the fixed prefix
`"Error: Failed to generate meeting summary due to: "` followed by the
failure text, rather than propagated. -/
theorem C6_summary_errors :
    (∀ (ask : String → Except String String) (t : String), pyStrip t = "" →
        summarise_meeting ask t = "Error: Transcript was empty.") ∧
    (∀ (ask ask2 : String → Except String String) (t : String), pyStrip t = "" →
        summarise_meeting ask t = summarise_meeting ask2 t) ∧
    (∀ (ask : String → Except String String) (t e : String),
        ask (summaryPrompt t) = .error e →
        pyStrip t ≠ "" →
        summarise_meeting ask t =
          ("Error: Failed to generate meeting summary due to: ") ++ e) := by
  refine ⟨fun ask t ht => ?_, fun ask ask2 t ht => ?_, fun ask t e hask ht => ?_⟩
  · simp [summarise_meeting, ht]
  · simp [summarise_meeting, ht]
  · simp [summarise_meeting, ht, hask]

/-- Witness for C6 at concrete inputs. -/
theorem C6_witness :
    summarise_meeting (fun _ => .ok ("sum")) ("  ") = "Error: Transcript was empty." ∧
    summarise_meeting (fun _ => .error ("boom")) ("talk") =
      ("Error: Failed to generate meeting summary due to: ") ++ ("boom") :=
  ⟨C6_summary_errors.1 (fun _ => .ok ("sum")) ("  ") rfl,
   C6_summary_errors.2.2 (fun _ => .error ("boom")) ("talk") ("boom") rfl
     (by decide)⟩

/-- An element the validation skips contributes nothing to the loop. -/
theorem validateLoop_drop (item : JVal) (hitem : validateItem item = .ok none) :
    ∀ (pre post : List JVal) (acc : List Persona),
      validateLoop (pre ++ item :: post) acc = validateLoop (pre ++ post) acc := by
  intro pre
  induction pre with
  | nil =>
    intro post acc
    simp [validateLoop, hitem]
  | cons x xs ih =>
    intro post acc
    cases hx : validateItem x with
    | error e => simp [validateLoop, hx]
    | ok op =>
      cases op with
      | none => simp [validateLoop, hx, ih]
      | some p => simp [validateLoop, hx, ih]

/-- C8: an array element missing one or more of the six required persona
fields is dropped individually — its validation yields a skip, not a
stage failure, and removing it from any position of the parsed array
does not change the resulting persona list — and the number of personas
returned never exceeds the requested count. -/
theorem C8_persona_validation :
    (∀ (fields : List (String × JVal)),
        (∃ k, k ∈ requiredKeys ∧ objGet fields k = none) →
        validateItem (.obj fields) = .ok none) ∧
    (∀ (pre post : List JVal) (item : JVal) (count : Int),
        validateItem item = .ok none →
        personasFromJson (pre ++ item :: post) count =
          personasFromJson (pre ++ post) count) ∧
    (∀ (parsed : List JVal) (count : Int), 0 ≤ count →
        ((personasFromJson parsed count).length : Int) ≤ count) := by
  refine ⟨fun fields h => ?_, fun pre post item count hitem => ?_,
    fun parsed count h0 => ?_⟩
  · obtain ⟨k, hk, hmiss⟩ := h
    have hne : ¬ (requiredKeys.all (fun k2 => (objGet fields k2).isSome) = true) := by
      intro hall
      have := List.all_eq_true.mp hall k hk
      simp [hmiss] at this
    have hall : requiredKeys.all (fun k2 => (objGet fields k2).isSome) = false :=
      Bool.eq_false_iff.mpr hne
    simp [validateItem, hall]
  · simp [personasFromJson, validateLoop_drop item hitem pre post]
  · cases hv : validateLoop parsed [] with
    | error e => simp [personasFromJson, hv]; omega
    | ok ps =>
      by_cases hgt : (ps.length : Int) > count
      · have hlen : (ps.take count.toNat).length ≤ count.toNat := by
          simp [List.length_take]
        have hcast : ((ps.take count.toNat).length : Int) ≤ (count.toNat : Int) := by
          exact_mod_cast hlen
        have htn : ((count.toNat : Nat) : Int) = count := Int.toNat_of_nonneg h0
        simp only [personasFromJson, hv, hgt, if_pos]
        omega
      · simp only [personasFromJson, hv, if_neg hgt]
        omega

/-- Witness for C8 at concrete inputs: an object having only a `name`
field is skipped, removing it changes nothing, and the count bound holds
at an empty array. -/
theorem C8_witness :
    validateItem (.obj [(("name"), JVal.str ("A"))]) = .ok none ∧
    personasFromJson [JVal.obj [(("name"), JVal.str ("A"))]] 3 =
      personasFromJson [] 3 ∧
    ((personasFromJson [] 3).length : Int) ≤ 3 := by
  have h1 := C8_persona_validation.1 [(("name"), JVal.str ("A"))]
    ⟨("background"), by decide, rfl⟩
  refine ⟨h1, ?_, C8_persona_validation.2.2 [] 3 (by decide)⟩
  have h2 := C8_persona_validation.2.1 [] []
    (JVal.obj [(("name"), JVal.str ("A"))]) 3 h1
  simpa using h2

/-- C5: a set error flag makes each subsequent node return its input
state unchanged (skip), and whenever one of the four stages fails, the
run keeps the artifacts of the stages before the failure, leaves the
later artifacts at their initial values, still hands exactly those
partial artifacts to the report writer, and exits with a failure code. -/
theorem C5_error_short_circuit :
    (∀ (κ : Type) (stg : Stages κ) (st : AgentState κ), st.error.isSome →
        run_persona_generation stg st = st ∧
        run_board_simulation stg st = st ∧
        run_summary_generation stg st = st) ∧
    (∀ (κ ρ : Type) (stg : Stages κ)
        (W : κ → List FeatureProposal → List Persona → String → String → ρ)
        (sel : κ) (e : String), stg.ideate sel = .error e →
        main_run stg W sel = { report := W sel [] [] ("") (""), exitOk := false }) ∧
    (∀ (κ ρ : Type) (stg : Stages κ)
        (W : κ → List FeatureProposal → List Persona → String → String → ρ)
        (sel : κ) (fs : List FeatureProposal) (e : String),
        stg.ideate sel = .ok fs → stg.gen_personas sel = .error e →
        main_run stg W sel = { report := W sel fs [] ("") (""), exitOk := false }) ∧
    (∀ (κ ρ : Type) (stg : Stages κ)
        (W : κ → List FeatureProposal → List Persona → String → String → ρ)
        (sel : κ) (fs : List FeatureProposal) (ps : List Persona) (e : String),
        stg.ideate sel = .ok fs → stg.gen_personas sel = .ok ps →
        stg.board ps fs = .error e →
        main_run stg W sel = { report := W sel fs ps ("") (""), exitOk := false }) ∧
    (∀ (κ ρ : Type) (stg : Stages κ)
        (W : κ → List FeatureProposal → List Persona → String → String → ρ)
        (sel : κ) (fs : List FeatureProposal) (ps : List Persona)
        (th : String × List Msg) (e : String),
        stg.ideate sel = .ok fs → stg.gen_personas sel = .ok ps →
        stg.board ps fs = .ok th → stg.summarise th.1 th.2 = .error e →
        main_run stg W sel = { report := W sel fs ps th.1 (""), exitOk := false }) := by
  refine ⟨fun κ stg st h => ?_, fun κ ρ stg W sel e h1 => ?_,
    fun κ ρ stg W sel fs e h1 h2 => ?_, fun κ ρ stg W sel fs ps e h1 h2 h3 => ?_,
    fun κ ρ stg W sel fs ps th e h1 h2 h3 h4 => ?_⟩
  · exact ⟨by simp [run_persona_generation, h],
      by simp [run_board_simulation, h],
      by simp [run_summary_generation, h]⟩
  · simp [main_run, build_pipeline, initAgentState, run_feature_ideation,
      run_persona_generation, run_board_simulation, run_summary_generation, h1]
  · simp [main_run, build_pipeline, initAgentState, run_feature_ideation,
      run_persona_generation, run_board_simulation, run_summary_generation, h1, h2]
  · simp [main_run, build_pipeline, initAgentState, run_feature_ideation,
      run_persona_generation, run_board_simulation, run_summary_generation,
      h1, h2, h3]
  · simp [main_run, build_pipeline, initAgentState, run_feature_ideation,
      run_persona_generation, run_board_simulation, run_summary_generation,
      h1, h2, h3, h4]

/-- Witness for C5: a run whose persona stage fails keeps the ideated
features, skips the remaining stages, and still reports the partial
artifacts with a failure exit. -/
theorem C5_witness :
    main_run
      { ideate := fun _ => .ok [fSleep]
        gen_personas := fun _ => .error ("api down")
        board := fun ps fs => .ok (simulate_board constOracle idShuffle ps fs 3)
        summarise := fun t _ => .ok (summarise_meeting (fun _ => .ok ("s")) t) }
      (fun (sel : Nat) fs ps t s => (sel, fs, ps, t, s)) 7 =
      { report := (7, [fSleep], [], (""), ("")), exitOk := false } :=
  C5_error_short_circuit.2.2.1 Nat _
    { ideate := fun _ => .ok [fSleep]
      gen_personas := fun _ => .error ("api down")
      board := fun ps fs => .ok (simulate_board constOracle idShuffle ps fs 3)
      summarise := fun t _ => .ok (summarise_meeting (fun _ => .ok ("s")) t) }
    (fun sel fs ps t s => (sel, fs, ps, t, s)) 7 [fSleep] ("api down") rfl rfl

end UserBoard
